import Mathlib

/-!
Verification development for the batched tensor I/O marshalling layer of
rapids-triton, embedding `src/cpp/include/rapids_triton/batch/batch.hpp`
(the `Batch` template) in Lean.  Shapes are lists of `Nat` (`size_type` is
`std::size_t`), device ids are `Int` (`device_id_t` is a signed integer),
element sizes (`sizeof(T)`) are an explicit `Nat` parameter, and the
asynchronous stream is an opaque `Nat` handle.  Runtime collaborators that
live outside `src/` (the Triton input collector, the output responder, the
response construction helper, the shape-resolution helper and the `narrow`
conversion) are modelled from the spec where noted.
-/

/-- Memory spaces as in rapids_triton/memory/types.hpp: host or device. -/
inductive MemoryType where
  | HostMemory : MemoryType
  | DeviceMemory : MemoryType
deriving DecidableEq

/-- Error kinds of the batching layer, named as in the spec (section 7).
The source throws TritonException; the distinct kinds are modelled as
constructors.  `IncompatibleShape` carries the offending request index. -/
inductive RapidsError where
  | IncompatibleShape : Nat → RapidsError
  | UnexpectedDataLocation : RapidsError
  | NarrowingError : RapidsError
  | ContractViolation : RapidsError
deriving DecidableEq

/-- Modelled from the spec: a Buffer is a memory region tagged with a memory
space, a device id, a byte length and a stream affinity (spec section 3);
the Buffer class itself lives in rapids_triton/memory/buffer.hpp, which is
not under src/. -/
structure Buffer where
  mem_type : MemoryType
  device_id : Int
  byte_length : Nat
  stream : Nat
deriving DecidableEq

/-- A Tensor pairs a shape with a Buffer (spec section 3). -/
structure Tensor where
  shape : List Nat
  buffer : Buffer
deriving DecidableEq

/-- An OutputTensor additionally remembers the output name it was declared
under; it shares the output responder with the Batch (not modelled beyond
the record the Batch keeps). -/
structure OutputTensor where
  shape : List Nat
  buffer : Buffer
  name : String
deriving DecidableEq

/-- A request handle: for each named input, the per-request shape of that
shard (spec section 3; TRITONBACKEND_Request is opaque, its shards are read
through the serving layer). -/
structure Request where
  input_shapes : String → List Nat

/-- A response slot; opaque to this layer, mutated only by the external
responder (spec section 3). -/
structure Response where
deriving DecidableEq

/-- Model state: the way to read model output-shape metadata by name (spec
section 6); embeds model_state_->FindBatchOutput(name)->OutputShape(),
whose coordinates are signed. -/
structure ModelState where
  batchOutputShape : String → List Int

/-- Modelled from the spec: the state the shared BackendOutputResponder
(triton/backend/backend_output_responder.h, external to src/) keeps for this
batch — the outputs declared so far, each with whether its deferred scatter
will enqueue asynchronous copy work (decided by the memory spaces involved,
spec section 4.3). -/
structure Responder where
  declared : List (String × Bool)
deriving DecidableEq

/-- Modelled from the spec: BackendOutputResponder::Finalize performs the
deferred scatter and returns a boolean indicating whether any asynchronous
work was enqueued (spec section 4.3); with zero outputs declared no work
exists. -/
def Responder.Finalize (r : Responder) : Bool :=
  r.declared.any (fun d => d.2)

/-- The location the input collector reports for the gathered buffer; an
environment parameter standing for the runtime outcome of the gather. -/
structure GatherReport where
  mem_type : MemoryType
  device_id : Int
deriving DecidableEq

/-- The Batch aggregate (batch.hpp lines 38-144): the request list, the
one-response-per-request list, the responder record and the stream.  The
collector holds no state the claims observe, and the source keeps no
finalization flag. -/
structure Batch where
  model_state : ModelState
  requests : List Request
  responses : List Response
  responder : Responder
  stream : Nat

/-- Modelled from the spec: construct_responses (rapids_triton/triton/
responses.hpp, not under src/) synchronously allocates one response slot per
request, in 1:1 correspondence by index (spec sections 3 and 4.4). -/
def construct_responses (requests : List Request) : List Response :=
  requests.map (fun _ => {})

/-- Embedding of the Batch constructor (batch.hpp lines 41-62).  The
output_shape and max_batch_size parameters are accepted and unused, as in
the source; the collector and responder runtime objects are external, the
record of declared outputs starts empty. -/
def Batch.construct (model_state : ModelState) (raw_requests : List Request)
    (output_shape : List Nat) (max_batch_size : Nat) (stream : Nat) : Batch :=
  { model_state := model_state
    requests := raw_requests
    responses := construct_responses raw_requests
    responder := { declared := [] }
    stream := stream }

/-- Helper of the shape resolution: walks the per-request shapes, checks
that every shape agrees with the reference non-batch dimensions t0, and
sums the batch-axis (leading) sizes; a mismatch is reported with the index
of the offending request.  Part of the spec-modelled resolution below. -/
def gather_shapes (t0 : List Nat) (i : Nat) : List (List Nat) → Except RapidsError Nat
  | [] => Except.ok 0
  | s :: rest =>
    if s.tail = t0 then
      match gather_shapes t0 (i + 1) rest with
      | Except.ok n => Except.ok (s.headD 0 + n)
      | Except.error e => Except.error e
    else
      Except.error (RapidsError.IncompatibleShape i)

/-- Modelled from the spec: get_triton_input_shape (rapids_triton/triton/
input.hpp, not under src/) computes the unified input shape from the
per-request shapes of a named input: it sums the batch axis across requests
and requires all non-batch dimensions to match exactly across requests;
mismatch is a fatal incompatible-shapes error naming the offending request
index (spec section 4.1). -/
def get_triton_input_shape (shapes : List (List Nat)) : Except RapidsError (List Nat) :=
  match shapes with
  | [] => Except.ok []
  | s0 :: _ =>
    match gather_shapes s0.tail 0 shapes with
    | Except.ok total => Except.ok (total :: s0.tail)
    | Except.error e => Except.error e

/-- Embedding of the private member Batch::get_input_shape (batch.hpp lines
130-136): an empty request list yields an empty shape vector; otherwise the
shape is resolved by get_triton_input_shape over all requests. -/
def Batch.get_input_shape (b : Batch) (name : String) : Except RapidsError (List Nat) :=
  if b.requests.isEmpty then
    Except.ok []
  else
    get_triton_input_shape (b.requests.map (fun r => r.input_shapes name))

/-- The reduction std::reduce(shape.begin(), shape.end(), std::size_t(1),
std::multiplies()) used at batch.hpp lines 68 and 103-104. -/
def shape_product (shape : List Nat) : Nat :=
  shape.foldl (fun a d => a * d) 1

/-- Modelled from the spec: BackendInputCollector::ProcessTensor
(triton/backend/backend_input_collector.h, external to src/) gathers the
shards of the named input into one contiguous buffer of the requested byte
length in the target memory space, reporting the actual location of the
gathered data (spec section 4.2); the reported location is the environment
parameter report. -/
def processTensor (size_bytes : Nat) (report : GatherReport) (stream : Nat) : Buffer :=
  { mem_type := report.mem_type
    device_id := report.device_id
    byte_length := size_bytes
    stream := stream }

/-- Embedding of Batch::get_input (batch.hpp lines 65-98) for element type T
with sizeof(T) = sizeofT: resolve the unified shape, compute the required
byte length, gather through the collector, then check that the reported
memory type and device id equal the requested ones — on mismatch throw the
wrong-location error, otherwise return the Tensor.  The batch state is
returned unchanged (the source mutates none of its members here). -/
def Batch.get_input (b : Batch) (sizeofT : Nat) (name : String)
    (memory_type : MemoryType) (device_id : Int) (report : GatherReport) :
    Except RapidsError Tensor × Batch :=
  match b.get_input_shape name with
  | Except.error e => (Except.error e, b)
  | Except.ok shape =>
    let size_bytes := sizeofT * shape_product shape
    let buffer := processTensor size_bytes report b.stream
    if report.mem_type ≠ memory_type ∨ report.device_id ≠ device_id then
      (Except.error RapidsError.UnexpectedDataLocation, b)
    else
      (Except.ok { shape := shape, buffer := buffer }, b)

/-- Modelled from the spec: narrow (rapids_triton/utils/narrow.hpp, not
under src/) converts a signed metadata coordinate to a size_t dimension,
failing on any value a size_t cannot represent (negative). -/
def narrow (coord : Int) : Except RapidsError Nat :=
  if coord < 0 then Except.error RapidsError.NarrowingError
  else Except.ok coord.toNat

/-- Embedding of the private member Batch::get_output_shape (batch.hpp
lines 138-143): reads the model-metadata output shape for the name and
narrows each coordinate to size_t; the requests are not consulted. -/
def Batch.get_output_shape (b : Batch) (name : String) : Except RapidsError (List Nat) :=
  (b.model_state.batchOutputShape name).mapM narrow

/-- Embedding of Batch::get_output (batch.hpp lines 100-107) for element
type T with sizeof(T) = sizeofT: the shape comes from the model metadata,
the buffer is freshly allocated with shape_product shape elements in the
requested space, and the declared output is recorded with the shared
responder (through which its deferred scatter will run; scatter_is_async is
the environment fact of whether that scatter will enqueue asynchronous
work). -/
def Batch.get_output (b : Batch) (sizeofT : Nat) (name : String)
    (memory_type : MemoryType) (device_id : Int) (scatter_is_async : Bool) :
    Except RapidsError OutputTensor × Batch :=
  match b.get_output_shape name with
  | Except.error e => (Except.error e, b)
  | Except.ok shape =>
    let buffer_size := shape_product shape
    let buffer : Buffer :=
      { mem_type := memory_type
        device_id := device_id
        byte_length := sizeofT * buffer_size
        stream := b.stream }
    (Except.ok { shape := shape, buffer := buffer, name := name },
     { b with responder := { declared := b.responder.declared ++ [(name, scatter_is_async)] } })

/-- Embedding of Batch::finalize (batch.hpp lines 113-119): calls
Finalize on the responder and synchronizes the stream exactly when it
returns true; the boolean result records whether cudaStreamSynchronize was
invoked.  The source keeps no finalization flag and mutates no member, so
the batch state is returned unchanged. -/
def Batch.finalize (b : Batch) : Bool × Batch :=
  if Responder.Finalize b.responder then (true, b) else (false, b)

/-- A request with a fixed shape for every input name, for concrete
instances. -/
def exRequest (shape : List Nat) : Request :=
  { input_shapes := fun _ => shape }

/-- Model metadata declaring output shape [2] for every name, as in the
concrete scenario of spec section 8. -/
def exModelState : ModelState :=
  { batchOutputShape := fun _ => [2] }

/-- The three requests of the concrete scenario in spec section 8: input
shapes [2,4], [1,4] and [3,4]. -/
def exRequests : List Request :=
  [exRequest [2, 4], exRequest [1, 4], exRequest [3, 4]]

/-- The batch of the concrete scenario in spec section 8. -/
def exBatch : Batch :=
  Batch.construct exModelState exRequests [2] 8 0

/-- A batch over an empty request list. -/
def exBatchEmpty : Batch :=
  Batch.construct exModelState [] [2] 8 0

/-- A batch of two requests that disagree on a non-batch dimension of input
shapes ([2,4] versus [1,5]). -/
def exBadBatch : Batch :=
  Batch.construct exModelState [exRequest [2, 4], exRequest [1, 5]] [2] 8 0

/-- If every per-request shape agrees with the reference non-batch
dimensions, gather_shapes succeeds and returns the sum of the batch-axis
sizes. -/
theorem gather_shapes_ok_of_agree (t0 : List Nat) :
    ∀ (shapes : List (List Nat)) (i : Nat), (∀ s ∈ shapes, s.tail = t0) →
      gather_shapes t0 i shapes = Except.ok ((shapes.map (fun s => s.headD 0)).sum) := by
  intro shapes
  induction shapes with
  | nil => intro i _; rfl
  | cons s rest ih =>
    intro i h
    have hs : s.tail = t0 := h s (List.mem_cons_self s rest)
    have hrest : ∀ x ∈ rest, x.tail = t0 := fun x hx => h x (List.mem_cons_of_mem s hx)
    simp only [gather_shapes, if_pos hs, ih (i + 1) hrest, List.map_cons, List.sum_cons]

/-- If some per-request shape disagrees with the reference non-batch
dimensions, gather_shapes fails with an IncompatibleShape error. -/
theorem gather_shapes_error_of_mismatch (t0 : List Nat) :
    ∀ (shapes : List (List Nat)) (i : Nat), (∃ s ∈ shapes, s.tail ≠ t0) →
      ∃ k, gather_shapes t0 i shapes = Except.error (RapidsError.IncompatibleShape k) := by
  intro shapes
  induction shapes with
  | nil => intro i h; exact absurd h (by simp)
  | cons s rest ih =>
    intro i h
    by_cases hs : s.tail = t0
    · have hrest : ∃ x ∈ rest, x.tail ≠ t0 := by
        rcases h with ⟨x, hx, hxne⟩
        rcases List.mem_cons.mp hx with rfl | hx2
        · exact absurd hs hxne
        · exact ⟨x, hx2, hxne⟩
      rcases ih (i + 1) hrest with ⟨k, hk⟩
      exact ⟨k, by simp only [gather_shapes, if_pos hs, hk]⟩
    · exact ⟨i, by simp only [gather_shapes, if_neg hs]⟩

/-- When the shape resolution succeeds and the collector reports exactly the
requested location, get_input returns the fully determined Tensor: the
resolved shape over a buffer of sizeofT * shape_product shape bytes in the
requested space on the requested device. -/
theorem get_input_ok_of_shape (b : Batch) (sizeofT : Nat) (name : String)
    (mt : MemoryType) (dev : Int) (sh : List Nat)
    (hsh : b.get_input_shape name = Except.ok sh) :
    (b.get_input sizeofT name mt dev ⟨mt, dev⟩).1 =
      Except.ok { shape := sh
                  buffer := { mem_type := mt, device_id := dev
                              byte_length := sizeofT * shape_product sh
                              stream := b.stream } } := by
  unfold Batch.get_input
  rw [hsh]
  simp [processTensor]

/-- A failure of the shape resolution propagates out of get_input
unchanged, whatever location the collector would have reported. -/
theorem get_input_error_of_shape (b : Batch) (sizeofT : Nat) (name : String)
    (mt : MemoryType) (dev : Int) (rep : GatherReport) (e : RapidsError)
    (hsh : b.get_input_shape name = Except.error e) :
    (b.get_input sizeofT name mt dev rep).1 = Except.error e := by
  unfold Batch.get_input
  rw [hsh]

/-- With a nonempty request list whose per-request shapes all agree on the
non-batch dimensions t0, the resolved input shape is the sum of the
batch-axis sizes consed onto t0. -/
theorem get_input_shape_ok_of_agree (b : Batch) (name : String) (t0 : List Nat)
    (hne : b.requests ≠ [])
    (hagree : ∀ r ∈ b.requests, (r.input_shapes name).tail = t0) :
    b.get_input_shape name =
      Except.ok ((b.requests.map (fun r => (r.input_shapes name).headD 0)).sum :: t0) := by
  obtain ⟨r, rs, hreq⟩ := List.exists_cons_of_ne_nil hne
  have ht : (r.input_shapes name).tail = t0 :=
    hagree r (by rw [hreq]; exact List.mem_cons_self r rs)
  have hall : ∀ s ∈ (r :: rs).map (fun q => q.input_shapes name), s.tail = t0 := by
    intro s hs
    rcases List.mem_map.mp hs with ⟨q, hq, rfl⟩
    exact hagree q (by rw [hreq]; exact hq)
  unfold Batch.get_input_shape
  rw [hreq]
  simp only [List.isEmpty_cons, Bool.false_eq_true, if_false]
  unfold get_triton_input_shape
  simp only [List.map_cons]
  rw [ht, gather_shapes_ok_of_agree t0 _ 0 (by simpa using hall)]
  simp [List.map_map, Function.comp_def]

/-- Finalize does not change the batch state (the source mutates no member
of the Batch). -/
theorem finalize_state_unchanged (b : Batch) : b.finalize.2 = b := by
  unfold Batch.finalize
  by_cases h : Responder.Finalize b.responder <;> simp [h]

/-- C1: for every batch and every named input whose per-request shapes
agree on every non-batch dimension, get_input (with the gather landing in
the requested location) returns a Tensor whose leading batch dimension is
the sum of the per-request batch-axis sizes, with the non-batch dimensions
unchanged. -/
theorem get_input_unified_batch_shape (b : Batch) (name : String) (t0 : List Nat)
    (sizeofT : Nat) (mt : MemoryType) (dev : Int)
    (hne : b.requests ≠ [])
    (hagree : ∀ r ∈ b.requests, (r.input_shapes name).tail = t0) :
    ∃ t : Tensor, (b.get_input sizeofT name mt dev ⟨mt, dev⟩).1 = Except.ok t ∧
      t.shape = (b.requests.map (fun r => (r.input_shapes name).headD 0)).sum :: t0 := by
  have hsh := get_input_shape_ok_of_agree b name t0 hne hagree
  exact ⟨_, get_input_ok_of_shape b sizeofT name mt dev _ hsh, rfl⟩

/-- Witness for C1 at the concrete scenario of spec section 8: three
requests with shapes [2,4], [1,4], [3,4] and the resolved shape [6,4]. -/
theorem get_input_unified_batch_shape_witness :
    ∃ t : Tensor,
      (exBatch.get_input 4 "x" MemoryType.DeviceMemory 0
        ⟨MemoryType.DeviceMemory, 0⟩).1 = Except.ok t ∧
      t.shape = (exBatch.requests.map (fun r => (r.input_shapes "x").headD 0)).sum :: [4] :=
  get_input_unified_batch_shape exBatch "x" [4] 4 MemoryType.DeviceMemory 0
    (by simp [exBatch, Batch.construct, exRequests])
    (by
      intro r hr
      have hcases : r = exRequest [2, 4] ∨ r = exRequest [1, 4] ∨ r = exRequest [3, 4] := by
        simpa [exBatch, Batch.construct, exRequests] using hr
      rcases hcases with rfl | rfl | rfl <;> rfl)

/-- C4: when the shape resolution succeeds, get_input fails with the
unexpected-data-location error whenever the reported memory space or device
id differs from the requested one, and otherwise returns a Tensor whose
buffer carries the requested memory space and device. -/
theorem get_input_location_check (b : Batch) (sizeofT : Nat) (name : String)
    (mt : MemoryType) (dev : Int) (rep : GatherReport) (sh : List Nat)
    (hsh : b.get_input_shape name = Except.ok sh) :
    ((rep.mem_type ≠ mt ∨ rep.device_id ≠ dev) →
       (b.get_input sizeofT name mt dev rep).1 =
         Except.error RapidsError.UnexpectedDataLocation) ∧
    (rep.mem_type = mt → rep.device_id = dev →
       ∃ t : Tensor, (b.get_input sizeofT name mt dev rep).1 = Except.ok t ∧
         t.buffer.mem_type = mt ∧ t.buffer.device_id = dev) := by
  constructor
  · intro hmis
    unfold Batch.get_input
    rw [hsh]
    simp only [if_pos hmis]
  · intro hm hd
    obtain ⟨rm, rd⟩ := rep
    cases hm
    cases hd
    exact ⟨_, get_input_ok_of_shape b sizeofT name rm rd sh hsh, rfl, rfl⟩

/-- Witness for C4: on the concrete batch the mismatching report fails with
the unexpected-data-location error and the matching one yields the
requested location. -/
theorem get_input_location_check_witness :
    (((⟨MemoryType.HostMemory, 0⟩ : GatherReport).mem_type ≠ MemoryType.DeviceMemory ∨
        (⟨MemoryType.HostMemory, 0⟩ : GatherReport).device_id ≠ (0 : Int)) →
       (exBatch.get_input 4 "x" MemoryType.DeviceMemory 0 ⟨MemoryType.HostMemory, 0⟩).1 =
         Except.error RapidsError.UnexpectedDataLocation) ∧
    ((⟨MemoryType.HostMemory, 0⟩ : GatherReport).mem_type = MemoryType.DeviceMemory →
       (⟨MemoryType.HostMemory, 0⟩ : GatherReport).device_id = (0 : Int) →
       ∃ t : Tensor,
         (exBatch.get_input 4 "x" MemoryType.DeviceMemory 0 ⟨MemoryType.HostMemory, 0⟩).1 =
           Except.ok t ∧
         t.buffer.mem_type = MemoryType.DeviceMemory ∧ t.buffer.device_id = (0 : Int)) :=
  get_input_location_check exBatch 4 "x" MemoryType.DeviceMemory 0
    ⟨MemoryType.HostMemory, 0⟩ [6, 4] rfl

/-- C8: every Tensor returned by get_input satisfies the Tensor invariant,
the product of its dimensions times the element size equals the byte length
of its buffer. -/
theorem input_tensor_byte_length (b : Batch) (sizeofT : Nat) (name : String)
    (mt : MemoryType) (dev : Int) (rep : GatherReport) (t : Tensor)
    (h : (b.get_input sizeofT name mt dev rep).1 = Except.ok t) :
    sizeofT * shape_product t.shape = t.buffer.byte_length := by
  unfold Batch.get_input at h
  cases hsh : b.get_input_shape name with
  | error e =>
    rw [hsh] at h
    exact absurd h (by simp)
  | ok sh =>
    rw [hsh] at h
    dsimp only at h
    by_cases hc : rep.mem_type ≠ mt ∨ rep.device_id ≠ dev
    · rw [if_pos hc] at h
      exact absurd h (by simp)
    · rw [if_neg hc] at h
      simp only [Except.ok.injEq] at h
      rw [← h]
      simp [processTensor]

/-- Witness for C8 at the concrete scenario: shape [6,4] with element size
4 gives a 96-byte buffer. -/
theorem input_tensor_byte_length_witness :
    4 * shape_product
        ({ shape := [6, 4]
           buffer := { mem_type := MemoryType.DeviceMemory, device_id := 0
                       byte_length := 96, stream := 0 } } : Tensor).shape =
      ({ shape := [6, 4]
         buffer := { mem_type := MemoryType.DeviceMemory, device_id := 0
                     byte_length := 96, stream := 0 } } : Tensor).buffer.byte_length :=
  input_tensor_byte_length exBatch 4 "x" MemoryType.DeviceMemory 0
    ⟨MemoryType.DeviceMemory, 0⟩ _ rfl

/-- C9: a batch constructed from an empty request list resolves every input
shape to the empty shape sequence, without error. -/
theorem empty_requests_empty_input_shape (ms : ModelState) (output_shape : List Nat)
    (max_batch_size : Nat) (stream : Nat) (name : String) :
    (Batch.construct ms [] output_shape max_batch_size stream).get_input_shape name =
      Except.ok [] := rfl

/-- C10: with zero requests, get_input computes the required byte length as
sizeofT times the empty product with identity 1, that is sizeofT and not
zero, and the gathered buffer has exactly that size. -/
theorem empty_batch_input_byte_length (ms : ModelState) (output_shape : List Nat)
    (max_batch_size : Nat) (stream : Nat) (sizeofT : Nat) (hT : 0 < sizeofT)
    (name : String) (mt : MemoryType) (dev : Int) :
    ∃ t : Tensor,
      ((Batch.construct ms [] output_shape max_batch_size stream).get_input
          sizeofT name mt dev ⟨mt, dev⟩).1 = Except.ok t ∧
      t.buffer.byte_length = sizeofT ∧ t.buffer.byte_length ≠ 0 := by
  refine ⟨_, get_input_ok_of_shape _ sizeofT name mt dev []
    (empty_requests_empty_input_shape ms output_shape max_batch_size stream name), ?_, ?_⟩
  · show sizeofT * shape_product [] = sizeofT
    simp [shape_product]
  · show sizeofT * shape_product [] ≠ 0
    simp [shape_product]
    omega

/-- Witness for C10 with element size 4: the empty batch yields a 4-byte
buffer. -/
theorem empty_batch_input_byte_length_witness :
    ∃ t : Tensor,
      ((Batch.construct exModelState [] [2] 8 0).get_input 4 "x"
          MemoryType.DeviceMemory 0 ⟨MemoryType.DeviceMemory, 0⟩).1 = Except.ok t ∧
      t.buffer.byte_length = 4 ∧ t.buffer.byte_length ≠ 0 :=
  empty_batch_input_byte_length exModelState [2] 8 0 4 (by decide) "x"
    MemoryType.DeviceMemory 0

/-- C5: if any two requests of the batch disagree on a non-batch dimension
of the named input, get_input fails with an IncompatibleShape error and no
Tensor is returned. -/
theorem get_input_incompatible_shape_error (b : Batch) (name : String)
    (r1 r2 : Request) (h1 : r1 ∈ b.requests) (h2 : r2 ∈ b.requests)
    (hdis : (r1.input_shapes name).tail ≠ (r2.input_shapes name).tail)
    (sizeofT : Nat) (mt : MemoryType) (dev : Int) (rep : GatherReport) :
    ∃ k, (b.get_input sizeofT name mt dev rep).1 =
      Except.error (RapidsError.IncompatibleShape k) := by
  obtain ⟨r, rs, hreq⟩ := List.exists_cons_of_ne_nil (List.ne_nil_of_mem h1)
  have hbad : ∃ s ∈ (r :: rs).map (fun q => q.input_shapes name),
      s.tail ≠ (r.input_shapes name).tail := by
    by_cases hc : (r1.input_shapes name).tail = (r.input_shapes name).tail
    · refine ⟨r2.input_shapes name, List.mem_map.mpr ⟨r2, by rw [← hreq]; exact h2, rfl⟩, ?_⟩
      rw [← hc]
      exact fun hx => hdis hx.symm
    · exact ⟨r1.input_shapes name, List.mem_map.mpr ⟨r1, by rw [← hreq]; exact h1, rfl⟩, hc⟩
  obtain ⟨k, hk⟩ :=
    gather_shapes_error_of_mismatch (r.input_shapes name).tail
      ((r :: rs).map (fun q => q.input_shapes name)) 0 hbad
  refine ⟨k, get_input_error_of_shape b sizeofT name mt dev rep _ ?_⟩
  unfold Batch.get_input_shape
  rw [hreq]
  simp only [List.isEmpty_cons, Bool.false_eq_true, if_false]
  unfold get_triton_input_shape
  simp only [List.map_cons]
  rw [show ((r.input_shapes name) :: rs.map (fun q => q.input_shapes name)) =
      (r :: rs).map (fun q => q.input_shapes name) from rfl, hk]

/-- Witness for C5: two requests with shapes [2,4] and [1,5] make get_input
fail with an IncompatibleShape error. -/
theorem get_input_incompatible_shape_error_witness :
    ∃ k, (exBadBatch.get_input 4 "x" MemoryType.DeviceMemory 0
        ⟨MemoryType.DeviceMemory, 0⟩).1 =
      Except.error (RapidsError.IncompatibleShape k) :=
  get_input_incompatible_shape_error exBadBatch "x"
    (exRequest [2, 4]) (exRequest [1, 5])
    (List.mem_cons_self _ _)
    (List.mem_cons_of_mem _ (List.mem_cons_self _ _))
    (by decide) 4 MemoryType.DeviceMemory 0 ⟨MemoryType.DeviceMemory, 0⟩

/-- C3: finalize synchronizes the stream exactly when the responder reports
that asynchronous scatter work was enqueued; get_input never records an
output with the responder, and a freshly constructed batch, with zero
outputs declared, does not synchronize. -/
theorem finalize_syncs_iff_scatter_work (ms : ModelState) (reqs : List Request)
    (output_shape : List Nat) (max_batch_size : Nat) (stream : Nat) :
    (∀ b : Batch, (b.finalize.1 = true) ↔ (Responder.Finalize b.responder = true)) ∧
    (∀ (b : Batch) (sizeofT : Nat) (name : String) (mt : MemoryType) (dev : Int)
        (rep : GatherReport),
      ((b.get_input sizeofT name mt dev rep).2).responder = b.responder) ∧
    (Batch.construct ms reqs output_shape max_batch_size stream).finalize.1 = false := by
  refine ⟨?_, ?_, rfl⟩
  · intro b
    unfold Batch.finalize
    by_cases h : Responder.Finalize b.responder <;> simp [h]
  · intro b sizeofT name mt dev rep
    unfold Batch.get_input
    cases b.get_input_shape name with
    | error e => rfl
    | ok sh =>
      by_cases h : rep.mem_type ≠ mt ∨ rep.device_id ≠ dev
      · simp only [if_pos h]
      · simp only [if_neg h]

/-- C7: a batch constructed from N request handles has exactly N responses,
and get_input, get_output, stream and finalize all leave the response list
unchanged. -/
theorem responses_one_per_request (ms : ModelState) (reqs : List Request)
    (output_shape : List Nat) (max_batch_size : Nat) (stream : Nat) :
    (Batch.construct ms reqs output_shape max_batch_size stream).responses.length =
      reqs.length ∧
    (∀ (b : Batch) (sizeofT : Nat) (name : String) (mt : MemoryType) (dev : Int)
        (rep : GatherReport),
      ((b.get_input sizeofT name mt dev rep).2).responses = b.responses) ∧
    (∀ (b : Batch) (sizeofT : Nat) (name : String) (mt : MemoryType) (dev : Int)
        (a : Bool),
      ((b.get_output sizeofT name mt dev a).2).responses = b.responses) ∧
    (∀ b : Batch, ((Batch.stream b, b).2).responses = b.responses) ∧
    (∀ b : Batch, (b.finalize.2).responses = b.responses) := by
  refine ⟨?_, ?_, ?_, fun b => rfl, fun b => by rw [finalize_state_unchanged]⟩
  · simp [Batch.construct, construct_responses]
  · intro b sizeofT name mt dev rep
    unfold Batch.get_input
    cases b.get_input_shape name with
    | error e => rfl
    | ok sh =>
      by_cases h : rep.mem_type ≠ mt ∨ rep.device_id ≠ dev
      · simp only [if_pos h]
      · simp only [if_neg h]
  · intro b sizeofT name mt dev a
    unfold Batch.get_output
    cases b.get_output_shape name with
    | error e => rfl
    | ok sh => rfl

/-- Counterexample for C2: on the concrete batch whose total batch size is
6 (input shapes [2,4], [1,4], [3,4]) and whose model metadata declares
output shape [2] for "y", get_output returns shape [2], not the
batch-scaled [6,2] the claim requires. -/
theorem get_output_not_scaled_cex :
    exBatch.get_input_shape "x" = Except.ok [6, 4] ∧
    (exBatch.get_output 4 "y" MemoryType.DeviceMemory 0 false).1 =
      Except.ok { shape := [2], buffer := ⟨MemoryType.DeviceMemory, 0, 8, 0⟩
                  name := "y" } ∧
    ([2] : List Nat) ≠ [6, 2] :=
  ⟨rfl, rfl, by decide⟩

/-- C2 amended: get_output returns a Tensor whose shape equals the
model-metadata output shape for the name with each coordinate narrowed to
size_t, not scaled by the batch size — the result is independent of the
request list — and whose buffer holds exactly the product of the dimensions
of that shape in elements. -/
theorem get_output_shape_from_metadata (b : Batch) (sizeofT : Nat) (name : String)
    (mt : MemoryType) (dev : Int) (a : Bool) (t : OutputTensor)
    (h : (b.get_output sizeofT name mt dev a).1 = Except.ok t) :
    (b.model_state.batchOutputShape name).mapM narrow = Except.ok t.shape ∧
    t.buffer.byte_length = sizeofT * shape_product t.shape ∧
    ∀ (reqs2 : List Request) (resp2 : List Response) (r2 : Responder),
      ((Batch.mk b.model_state reqs2 resp2 r2 b.stream).get_output
          sizeofT name mt dev a).1 = Except.ok t := by
  unfold Batch.get_output at h
  cases hm : b.get_output_shape name with
  | error e =>
    rw [hm] at h
    exact absurd h (by simp)
  | ok sh =>
    rw [hm] at h
    dsimp only at h
    simp only [Except.ok.injEq] at h
    subst h
    refine ⟨hm, rfl, ?_⟩
    intro reqs2 resp2 r2
    unfold Batch.get_output
    rw [show (Batch.mk b.model_state reqs2 resp2 r2 b.stream).get_output_shape name =
        Except.ok sh from hm]

/-- Witness for C2 amended at the concrete scenario: metadata shape [2]
gives output shape [2] with an 8-byte buffer for 4-byte elements, whatever
the request list. -/
theorem get_output_shape_from_metadata_witness :
    (exBatch.model_state.batchOutputShape "y").mapM narrow =
      Except.ok (⟨[2], ⟨MemoryType.DeviceMemory, 0, 8, 0⟩, "y"⟩ : OutputTensor).shape ∧
    (⟨[2], ⟨MemoryType.DeviceMemory, 0, 8, 0⟩, "y"⟩ : OutputTensor).buffer.byte_length =
      4 * shape_product (⟨[2], ⟨MemoryType.DeviceMemory, 0, 8, 0⟩, "y"⟩ : OutputTensor).shape ∧
    ∀ (reqs2 : List Request) (resp2 : List Response) (r2 : Responder),
      ((Batch.mk exBatch.model_state reqs2 resp2 r2 exBatch.stream).get_output
          4 "y" MemoryType.DeviceMemory 0 false).1 =
        Except.ok (⟨[2], ⟨MemoryType.DeviceMemory, 0, 8, 0⟩, "y"⟩ : OutputTensor) :=
  get_output_shape_from_metadata exBatch 4 "y" MemoryType.DeviceMemory 0 false _ rfl

/-- Counterexample for C6: on the concrete batch, get_input and get_output
called after finalize() succeed exactly as before it — neither fails with a
ContractViolation error. -/
theorem post_finalize_not_rejected_cex :
    ((exBatch.finalize.2).get_input 4 "x" MemoryType.DeviceMemory 0
        ⟨MemoryType.DeviceMemory, 0⟩).1 =
      Except.ok { shape := [6, 4], buffer := ⟨MemoryType.DeviceMemory, 0, 96, 0⟩ } ∧
    (Except.ok { shape := [6, 4], buffer := ⟨MemoryType.DeviceMemory, 0, 96, 0⟩ } :
        Except RapidsError Tensor) ≠ Except.error RapidsError.ContractViolation ∧
    ((exBatch.finalize.2).get_output 4 "y" MemoryType.DeviceMemory 0 false).1 =
      Except.ok { shape := [2], buffer := ⟨MemoryType.DeviceMemory, 0, 8, 0⟩
                  name := "y" } ∧
    (Except.ok { shape := [2], buffer := ⟨MemoryType.DeviceMemory, 0, 8, 0⟩
                 name := "y" } :
        Except RapidsError OutputTensor) ≠ Except.error RapidsError.ContractViolation :=
  ⟨rfl, fun h => Except.noConfusion h, rfl, fun h => Except.noConfusion h⟩

/-- C6 amended: the Batch records no finalization state, so get_input and
get_output called after finalize() behave exactly as before it; no
ContractViolation is raised and honoring the call-before-finalize contract
is left to the caller. -/
theorem post_finalize_behavior_unchanged (b : Batch) (sizeofT : Nat) (name : String)
    (mt : MemoryType) (dev : Int) (rep : GatherReport) (a : Bool) :
    (b.finalize.2).get_input sizeofT name mt dev rep =
      b.get_input sizeofT name mt dev rep ∧
    (b.finalize.2).get_output sizeofT name mt dev a =
      b.get_output sizeofT name mt dev a := by
  rw [finalize_state_unchanged]
  exact ⟨rfl, rfl⟩
